import Mathlib

/-!
# Verification of the `finance_tools` calculator library

Shallow embedding of `src/finance_tools/finance_tools.py`.

Modelling conventions:
* Python numbers are idealized as exact rationals (`ℚ`); `calculate_fd` uses `ℝ`
  because its exponent `freq * years` is real-valued.
* Raw Python arguments are modelled by `PyVal` (a number, a numeric string, a
  non-numeric string, or `None`), so the coercion behaviour of `float(...)` and
  `int(...)` is observable.
* Python exceptions are modelled by `Except PyErr`: `TypeError` / `ValueError`
  with their message strings, and `ZeroDivisionError` raised implicitly by `/`.
* `round(x)` is Python 3 round-half-to-even (`pyRound`); `round(x, 2)` is
  `round2`; `int(x)` on a float truncates toward zero (`pyTrunc`).
-/

/-- Python exception surface of the library: `TypeError`, `ValueError`
(each with its message), and `ZeroDivisionError` raised by `/`. -/
inductive PyErr where
  | typeError (msg : String)
  | valueError (msg : String)
  | zeroDivisionError
deriving DecidableEq

/-- A raw argument as the Python functions receive it: a number (int/float),
a string parseable as a float, a non-numeric string, or `None`. -/
inductive PyVal where
  | num (q : ℚ)
  | numStr (q : ℚ)
  | badStr
  | pyNone
deriving DecidableEq

/-- Embedding of `_to_float` (finance_tools.py lines 15-21): `float(value)`
succeeds on numbers and numeric strings; on a non-numeric string it raises
`ValueError` and on `None` it raises `TypeError`, both of which are caught
and re-raised as `TypeError(f"{name} must be a number")`. -/
def toFloat (nm : String) (v : PyVal) : Except PyErr ℚ :=
  match v with
  | .num q => .ok q
  | .numStr q => .ok q
  | .badStr => .error (.typeError (nm ++ " must be a number"))
  | .pyNone => .error (.typeError (nm ++ " must be a number"))

/-- Python `int(x)` on a numeric value: truncation toward zero. -/
def pyTrunc (q : ℚ) : ℤ :=
  if 0 ≤ q then ⌊q⌋ else -⌊-q⌋

/-- Embedding of Python `int(value)` on a raw argument, as used for
`compounding_frequency_per_year` in `calculate_fd` (line 108): numbers are
truncated toward zero; an integer-literal string converts; a non-integer or
non-numeric string raises `ValueError`; `None` raises `TypeError`. -/
def pyIntCoerce (v : PyVal) : Except PyErr ℤ :=
  match v with
  | .num q => .ok (pyTrunc q)
  | .numStr q =>
      if q.den = 1 then .ok q.num
      else .error (.valueError "invalid literal for int() with base 10")
  | .badStr => .error (.valueError "invalid literal for int() with base 10")
  | .pyNone => .error (.typeError "int() argument cannot be NoneType")

/-- Python 3 `round(x)`: round half to even, via the floor and parity of the
fractional part. -/
def pyRound {α : Type} [LinearOrderedField α] [FloorRing α] (x : α) : ℤ :=
  if x - ⌊x⌋ < 1/2 then ⌊x⌋
  else if 1/2 < x - ⌊x⌋ then ⌊x⌋ + 1
  else if ⌊x⌋ % 2 = 0 then ⌊x⌋ else ⌊x⌋ + 1

/-- Python `round(x, 2)`: round half to even at two decimal places. -/
def round2 {α : Type} [LinearOrderedField α] [FloorRing α] (x : α) : α :=
  (pyRound (x * 100) : α) / 100

/-- The EMI arithmetic of `calculate_emi` (lines 50-53): the `monthly_rate == 0`
branch divides the principal evenly, otherwise the standard amortization
formula. Raised out of the function so its algebra can be studied; the
wrapper guards exactly the zero denominators at which Python would raise
`ZeroDivisionError`. -/
def emiCore (P monthly_rate : ℚ) (n : ℕ) : ℚ :=
  if monthly_rate = 0 then P / (n : ℚ)
  else P * monthly_rate * (1 + monthly_rate) ^ n / ((1 + monthly_rate) ^ n - 1)

/-- Embedding of `calculate_emi` (lines 24-55). Validation order and messages
follow the source; `n = int(round(t * 12))` (nonnegative because `t > 0` has
been validated, hence the `toNat`). The two `ZeroDivisionError` guards mark
exactly the inputs where the Python expressions `P / n` and
`... / ((1 + monthly_rate) ** n - 1)` divide by zero, which the source does
not guard. -/
def calculate_emi (principal annual_rate_percent tenure_years : PyVal) : Except PyErr ℚ :=
  match toFloat "principal" principal with
  | .error e => .error e
  | .ok P =>
  match toFloat "annual_rate_percent" annual_rate_percent with
  | .error e => .error e
  | .ok r_ann =>
  match toFloat "tenure_years" tenure_years with
  | .error e => .error e
  | .ok t =>
  if P ≤ 0 then .error (.valueError "principal must be > 0")
  else if t ≤ 0 then .error (.valueError "tenure_years must be > 0")
  else if r_ann < 0 then .error (.valueError "annual_rate_percent cannot be negative")
  else
    let monthly_rate := r_ann / 100 / 12
    let n := (pyRound (t * 12)).toNat
    if monthly_rate = 0 ∧ n = 0 then .error .zeroDivisionError
    else if monthly_rate ≠ 0 ∧ (1 + monthly_rate) ^ n - 1 = 0 then .error .zeroDivisionError
    else .ok (round2 (emiCore P monthly_rate n))

/-- Embedding of `calculate_sip` (lines 58-89): future value of a monthly
annuity with the extra `(1 + r)` factor, or `m * n` when the rate is zero. -/
def calculate_sip (monthly_investment annual_return_percent years : PyVal) : Except PyErr ℚ :=
  match toFloat "monthly_investment" monthly_investment with
  | .error e => .error e
  | .ok m =>
  match toFloat "annual_return_percent" annual_return_percent with
  | .error e => .error e
  | .ok r_ann =>
  match toFloat "years" years with
  | .error e => .error e
  | .ok y =>
  if m < 0 then .error (.valueError "monthly_investment cannot be negative")
  else if y ≤ 0 then .error (.valueError "years must be > 0")
  else if r_ann < 0 then .error (.valueError "annual_return_percent cannot be negative")
  else
    let monthly_rate := r_ann / 100 / 12
    let n := (pyRound (y * 12)).toNat
    if monthly_rate = 0 then .ok (round2 (m * (n : ℚ)))
    else .ok (round2 (m * (((1 + monthly_rate) ^ n - 1) / monthly_rate) * (1 + monthly_rate)))

/-- Embedding of `calculate_rd` (lines 122-156): textually the same annuity
computation as `calculate_sip`, with its own parameter names and messages. -/
def calculate_rd (monthly_deposit annual_rate_percent years : PyVal) : Except PyErr ℚ :=
  match toFloat "monthly_deposit" monthly_deposit with
  | .error e => .error e
  | .ok p =>
  match toFloat "annual_rate_percent" annual_rate_percent with
  | .error e => .error e
  | .ok r =>
  match toFloat "years" years with
  | .error e => .error e
  | .ok y =>
  if p < 0 then .error (.valueError "monthly_deposit cannot be negative")
  else if y ≤ 0 then .error (.valueError "years must be > 0")
  else if r < 0 then .error (.valueError "annual_rate_percent cannot be negative")
  else
    let n := (pyRound (y * 12)).toNat
    let monthly_rate := r / 100 / 12
    if monthly_rate = 0 then .ok (round2 (p * (n : ℚ)))
    else .ok (round2 (p * (((1 + monthly_rate) ^ n - 1) / monthly_rate) * (1 + monthly_rate)))

/-- Embedding of `calculate_fd` (lines 92-119). The first three parameters go
through the shared `_to_float`; `compounding_frequency_per_year` is converted
with a raw `int(...)` (line 108). The maturity amount uses a real-valued
exponent `freq * years`, hence the result lives in `ℝ` (Real.rpow). -/
noncomputable def calculate_fd
    (principal annual_rate_percent years compounding_frequency_per_year : PyVal) :
    Except PyErr ℝ :=
  match toFloat "principal" principal with
  | .error e => .error e
  | .ok P =>
  match toFloat "annual_rate_percent" annual_rate_percent with
  | .error e => .error e
  | .ok r =>
  match toFloat "years" years with
  | .error e => .error e
  | .ok t =>
  match pyIntCoerce compounding_frequency_per_year with
  | .error e => .error e
  | .ok freq =>
  if P ≤ 0 then .error (.valueError "principal must be > 0")
  else if t ≤ 0 then .error (.valueError "years must be > 0")
  else if r < 0 then .error (.valueError "annual_rate_percent cannot be negative")
  else if freq ≤ 0 then .error (.valueError "compounding_frequency_per_year must be > 0")
  else .ok (round2 ((P : ℝ) * ((1 : ℝ) + (r : ℝ) / 100 / (freq : ℝ)) ^ ((freq : ℝ) * (t : ℝ))))

/-- Embedding of `estimate_retirement_corpus` (lines 159-193): future value of
the current savings plus future value of the monthly-addition annuity. -/
def estimate_retirement_corpus
    (current_savings monthly_addition annual_return_percent years_to_retirement : PyVal) :
    Except PyErr ℚ :=
  match toFloat "current_savings" current_savings with
  | .error e => .error e
  | .ok S =>
  match toFloat "monthly_addition" monthly_addition with
  | .error e => .error e
  | .ok addn =>
  match toFloat "annual_return_percent" annual_return_percent with
  | .error e => .error e
  | .ok r =>
  match toFloat "years_to_retirement" years_to_retirement with
  | .error e => .error e
  | .ok y =>
  if S < 0 ∨ addn < 0 then .error (.valueError "savings and monthly additions cannot be negative")
  else if y ≤ 0 then .error (.valueError "years_to_retirement must be > 0")
  else if r < 0 then .error (.valueError "annual_return_percent cannot be negative")
  else
    let monthly_rate := r / 100 / 12
    let n := (pyRound (y * 12)).toNat
    let fv_savings := S * (1 + monthly_rate) ^ n
    let fv_additions :=
      if monthly_rate = 0 then addn * (n : ℚ)
      else addn * (((1 + monthly_rate) ^ n - 1) / monthly_rate) * (1 + monthly_rate)
    .ok (round2 (fv_savings + fv_additions))

/-- One month of the credit-card simulation (lines 274-280): apply interest,
then subtract the minimum payment computed on the post-interest balance,
flooring the result at zero. -/
def ccbStep (monthly_rate mp : ℚ) (bal : ℚ) : ℚ :=
  let bal1 := bal * (1 + monthly_rate)
  let payment := bal1 * (mp / 100)
  max 0 (bal1 - payment)

/-- The `for _ in range(m)` loop of `calculate_credit_card_balance`:
`ccLoop r mp k bal` is the balance after `k` simulated months. -/
def ccLoop (monthly_rate mp : ℚ) : ℕ → ℚ → ℚ
  | 0, bal => bal
  | k + 1, bal => ccLoop monthly_rate mp k (ccbStep monthly_rate mp bal)

/-- Embedding of `calculate_credit_card_balance` (lines 246-282). Note
`months` is coerced with `int(_to_float(...))`, i.e. any numeric value is
accepted and truncated toward zero before the `m < 1` check. -/
def calculate_credit_card_balance
    (current_balance monthly_interest_percent minimum_payment_percent months : PyVal) :
    Except PyErr ℚ :=
  match toFloat "current_balance" current_balance with
  | .error e => .error e
  | .ok bal =>
  match toFloat "monthly_interest_percent" monthly_interest_percent with
  | .error e => .error e
  | .ok mi =>
  match toFloat "minimum_payment_percent" minimum_payment_percent with
  | .error e => .error e
  | .ok mp =>
  match toFloat "months" months with
  | .error e => .error e
  | .ok mq =>
  let m := pyTrunc mq
  if bal < 0 then .error (.valueError "current_balance cannot be negative")
  else if mi < 0 ∨ mp < 0 then .error (.valueError "rates cannot be negative")
  else if m < 1 then .error (.valueError "months must be >= 1")
  else .ok (round2 (ccLoop (mi / 100) mp m.toNat bal))

/-- The structured record returned by `plan_budget` (lines 341-345). -/
structure BudgetPlan where
  savings_target : ℚ
  recommended_savings_percent : ℚ
  surplus_or_deficit : ℚ
deriving DecidableEq

/-- Embedding of `plan_budget` (lines 307-345): the tier table on
`expenses / income` is evaluated only when `income` is nonzero. -/
def plan_budget (monthly_income monthly_expenses : PyVal) : Except PyErr BudgetPlan :=
  match toFloat "monthly_income" monthly_income with
  | .error e => .error e
  | .ok mi =>
  match toFloat "monthly_expenses" monthly_expenses with
  | .error e => .error e
  | .ok mex =>
  if mi < 0 ∨ mex < 0 then .error (.valueError "income/expenses cannot be negative")
  else
    let surplus := mi - mex
    let rec_percent : ℚ :=
      if mi = 0 then 0
      else
        let expense_ratio := mex / mi
        if expense_ratio ≤ 7/10 then 20
        else if expense_ratio ≤ 9/10 then 10
        else 0
    .ok { savings_target := round2 (mi * (rec_percent / 100)),
          recommended_savings_percent := rec_percent,
          surplus_or_deficit := round2 surplus }

/-- The per-element loop shared by the two halves of `calculate_net_worth`
(lines 363-372): coerce element `i` under the name `tag_i`, reject negative
values with the loop's fixed message, and accumulate the running total. -/
def sumValidated (tag : String) (negMsg : String) : List PyVal → ℕ → ℚ → Except PyErr ℚ
  | [], _, acc => .ok acc
  | v :: rest, i, acc =>
    match toFloat (tag ++ "_" ++ toString i) v with
    | .error e => .error e
    | .ok x =>
      if x < 0 then .error (.valueError negMsg)
      else sumValidated tag negMsg rest (i + 1) (acc + x)

/-- Embedding of `calculate_net_worth` (lines 348-374). The Lean list type
plays the role of the `isinstance(..., (list, tuple))` check, which therefore
always passes here. -/
def calculate_net_worth (assets liabilities : List PyVal) : Except PyErr ℚ :=
  match sumValidated "asset" "asset values cannot be negative" assets 0 0 with
  | .error e => .error e
  | .ok total_assets =>
  match sumValidated "liability" "liability values cannot be negative" liabilities 0 0 with
  | .error e => .error e
  | .ok total_liabilities =>
  .ok (round2 (total_assets - total_liabilities))

/-- The budget policy table exactly as the specification words it: evaluated
only when income is positive, 20% when the expense ratio is at most 0.70,
10% when it is above 0.70 and at most 0.90, 0% when it is above 0.90, and 0
when income is zero. -/
def specBudgetPercent (income expenses : ℚ) : ℚ :=
  if income = 0 then 0
  else if expenses / income ≤ 7/10 then 20
  else if 7/10 < expenses / income ∧ expenses / income ≤ 9/10 then 10
  else 0

theorem pyRound_eq_low {α : Type} [LinearOrderedField α] [FloorRing α] (x : α) (z : ℤ)
    (h1 : (z : α) ≤ x) (h2 : x < (z : α) + 1/2) : pyRound x = z := by
  have hf : ⌊x⌋ = z := by
    rw [Int.floor_eq_iff]
    exact ⟨h1, by linarith⟩
  unfold pyRound
  rw [hf]
  rw [if_pos (show x - (z : α) < 1/2 by linarith)]

theorem pyRound_eq_high {α : Type} [LinearOrderedField α] [FloorRing α] (x : α) (z : ℤ)
    (h1 : (z : α) + 1/2 < x) (h2 : x < (z : α) + 1) : pyRound x = z + 1 := by
  have hf : ⌊x⌋ = z := by
    rw [Int.floor_eq_iff]
    exact ⟨by linarith, by linarith⟩
  unfold pyRound
  rw [hf]
  rw [if_neg (not_lt.mpr (show (1:α)/2 ≤ x - (z : α) by linarith)),
    if_pos (show (1:α)/2 < x - (z : α) by linarith)]

theorem round2_eq_low {α : Type} [LinearOrderedField α] [FloorRing α] (x : α) (z : ℤ)
    (h1 : (z : α) ≤ x * 100) (h2 : x * 100 < (z : α) + 1/2) : round2 x = (z : α) / 100 := by
  unfold round2
  rw [pyRound_eq_low (x * 100) z h1 h2]

theorem round2_eq_high {α : Type} [LinearOrderedField α] [FloorRing α] (x : α) (z : ℤ)
    (h1 : (z : α) + 1/2 < x * 100) (h2 : x * 100 < (z : α) + 1) :
    round2 x = ((z : α) + 1) / 100 := by
  unfold round2
  rw [pyRound_eq_high (x * 100) z h1 h2]
  push_cast
  ring

theorem pyRound_le_floor_add_one {α : Type} [LinearOrderedField α] [FloorRing α] (x : α) :
    pyRound x ≤ ⌊x⌋ + 1 := by
  unfold pyRound
  split_ifs <;> omega

theorem floor_le_pyRound {α : Type} [LinearOrderedField α] [FloorRing α] (x : α) :
    ⌊x⌋ ≤ pyRound x := by
  unfold pyRound
  split_ifs <;> omega

theorem pyRound_mono {α : Type} [LinearOrderedField α] [FloorRing α] {x y : α}
    (h : x ≤ y) : pyRound x ≤ pyRound y := by
  have hfl : ⌊x⌋ ≤ ⌊y⌋ := Int.floor_le_floor h
  rcases lt_or_eq_of_le hfl with hlt | heq
  · have h1 := pyRound_le_floor_add_one x
    have h2 := floor_le_pyRound y
    omega
  · unfold pyRound
    rw [← heq]
    have hxy : x - ⌊x⌋ ≤ y - ⌊x⌋ := by linarith
    split_ifs <;> first | omega | linarith

theorem round2_mono {α : Type} [LinearOrderedField α] [FloorRing α] {x y : α}
    (h : x ≤ y) : round2 x ≤ round2 y := by
  unfold round2
  have h1 := pyRound_mono (mul_le_mul_of_nonneg_right h (by norm_num : (0:α) ≤ 100))
  have h2 : ((pyRound (x * 100) : ℤ) : α) ≤ ((pyRound (y * 100) : ℤ) : α) :=
    Int.cast_le.mpr h1
  have h100 : (0:α) < 100 := by norm_num
  exact (div_le_div_iff_of_pos_right h100).mpr h2

theorem pyTrunc_intCast (z : ℤ) : pyTrunc (z : ℚ) = z := by
  unfold pyTrunc
  split_ifs with h
  · exact Int.floor_intCast z
  · rw [show (-(z:ℚ)) = ((-z : ℤ) : ℚ) by norm_num, Int.floor_intCast]
    ring

theorem pyTrunc_eq_of_nonneg (q : ℚ) (z : ℤ) (h0 : 0 ≤ q) (h1 : (z : ℚ) ≤ q)
    (h2 : q < (z : ℚ) + 1) : pyTrunc q = z := by
  unfold pyTrunc
  rw [if_pos h0, Int.floor_eq_iff]
  exact ⟨h1, by linarith⟩

theorem pyRound_nonneg_of_pos {x : ℚ} (hx : 0 < x) : 0 ≤ pyRound x := by
  have h1 : (0:ℤ) ≤ ⌊x⌋ := Int.floor_nonneg.mpr (le_of_lt hx)
  have h2 := floor_le_pyRound x
  omega

theorem geom_sum_pos_of_pos {x : ℚ} (hx : 0 < x) {n : ℕ} (hn : n ≠ 0) :
    0 < ∑ i ∈ Finset.range n, x ^ i :=
  Finset.sum_pos (fun i _ => pow_pos hx i) (Finset.nonempty_range_iff.mpr hn)

/-- Both branches of the EMI formula are the single expression
`P * (1 + r) ^ n / (1 + (1+r) + ... + (1+r)^(n-1))`: the geometric-sum
denominator collapses to `n` when `r = 0` and cancels against
`(1 + r) ^ n - 1 = r * Σ (1+r)^i` otherwise. -/
theorem emiCore_eq_geom (P : ℚ) {r : ℚ} (hr : 0 ≤ r) {n : ℕ} (hn : n ≠ 0) :
    emiCore P r n = P * (1 + r) ^ n / ∑ i ∈ Finset.range n, (1 + r) ^ i := by
  unfold emiCore
  rcases eq_or_lt_of_le hr with h | h
  · rw [if_pos h.symm, ← h]
    norm_num
  · rw [if_neg (ne_of_gt h)]
    have hgeom : (∑ i ∈ Finset.range n, (1 + r) ^ i) * r = (1 + r) ^ n - 1 := by
      have hg := geom_sum_mul (1 + r) n
      simpa using hg
    have hS : (∑ i ∈ Finset.range n, (1 + r) ^ i) ≠ 0 :=
      ne_of_gt (geom_sum_pos_of_pos (by linarith) hn)
    have hr0 : r ≠ 0 := ne_of_gt h
    rw [← hgeom]
    field_simp
    ring

/-- Strict monotonicity of the EMI formula in the monthly rate, for a fixed
positive principal and at least one month: termwise comparison of the
cross-multiplied geometric sums. -/
theorem emiCore_strict_mono (P : ℚ) (hP : 0 < P) {r1 r2 : ℚ} (h1 : 0 ≤ r1)
    (h12 : r1 < r2) {n : ℕ} (hn : n ≠ 0) : emiCore P r1 n < emiCore P r2 n := by
  rw [emiCore_eq_geom P h1 hn, emiCore_eq_geom P (by linarith : (0:ℚ) ≤ r2) hn]
  have ha : (0:ℚ) < 1 + r1 := by linarith
  have hb : (0:ℚ) < 1 + r2 := by linarith
  have hab : (1:ℚ) + r1 < 1 + r2 := by linarith
  have hS1 : 0 < ∑ i ∈ Finset.range n, (1 + r1) ^ i := geom_sum_pos_of_pos ha hn
  have hS2 : 0 < ∑ i ∈ Finset.range n, (1 + r2) ^ i := geom_sum_pos_of_pos hb hn
  rw [div_lt_div_iff₀ hS1 hS2]
  have key : (1 + r1) ^ n * ∑ i ∈ Finset.range n, (1 + r2) ^ i
      < (1 + r2) ^ n * ∑ i ∈ Finset.range n, (1 + r1) ^ i := by
    rw [Finset.mul_sum, Finset.mul_sum]
    apply Finset.sum_lt_sum_of_nonempty (Finset.nonempty_range_iff.mpr hn)
    intro i hi
    have hin : i < n := Finset.mem_range.mp hi
    have hd : (1 + r1) ^ (n - i) < (1 + r2) ^ (n - i) :=
      pow_lt_pow_left₀ hab (le_of_lt ha) (by omega)
    have hsa : (1 + r1) ^ n = (1 + r1) ^ i * (1 + r1) ^ (n - i) := by
      rw [← pow_add]
      congr 1
      omega
    have hsb : (1 + r2) ^ n = (1 + r2) ^ i * (1 + r2) ^ (n - i) := by
      rw [← pow_add]
      congr 1
      omega
    rw [hsa, hsb]
    have hpos : (0:ℚ) < (1 + r1) ^ i * (1 + r2) ^ i := by positivity
    calc (1 + r1) ^ i * (1 + r1) ^ (n - i) * (1 + r2) ^ i
        = ((1 + r1) ^ i * (1 + r2) ^ i) * (1 + r1) ^ (n - i) := by ring
      _ < ((1 + r1) ^ i * (1 + r2) ^ i) * (1 + r2) ^ (n - i) :=
          mul_lt_mul_of_pos_left hd hpos
      _ = (1 + r2) ^ i * (1 + r2) ^ (n - i) * (1 + r1) ^ i := by ring
  calc P * (1 + r1) ^ n * ∑ i ∈ Finset.range n, (1 + r2) ^ i
      = P * ((1 + r1) ^ n * ∑ i ∈ Finset.range n, (1 + r2) ^ i) := by ring
    _ < P * ((1 + r2) ^ n * ∑ i ∈ Finset.range n, (1 + r1) ^ i) :=
        mul_lt_mul_of_pos_left key hP
    _ = P * (1 + r2) ^ n * ∑ i ∈ Finset.range n, (1 + r1) ^ i := by ring

/-- On validated inputs with at least one rounded month, `calculate_emi`
returns the rounded `emiCore` value. -/
theorem emi_ok (P r t : ℚ) (hP : 0 < P) (ht : 0 < t) (hr : 0 ≤ r)
    (hn : 1 ≤ pyRound (t * 12)) :
    calculate_emi (.num P) (.num r) (.num t) =
      .ok (round2 (emiCore P (r / 100 / 12) (pyRound (t * 12)).toNat)) := by
  have hn0 : (pyRound (t * 12)).toNat ≠ 0 := by omega
  have hg2 : ¬ (¬ r / 100 / 12 = 0 ∧ (1 + r / 100 / 12) ^ (pyRound (t * 12)).toNat - 1 = 0) := by
    rintro ⟨hmr, hzero⟩
    have hrpos : 0 < r / 100 / 12 := by
      rcases eq_or_lt_of_le hr with h | h
      · exact absurd (by rw [← h]; norm_num) hmr
      · positivity
    have hgt : 1 < (1 + r / 100 / 12) ^ (pyRound (t * 12)).toNat :=
      one_lt_pow₀ (by linarith) hn0
    linarith
  unfold calculate_emi
  simp only [toFloat]
  rw [if_neg (not_le.mpr hP), if_neg (not_le.mpr ht), if_neg (not_lt.mpr hr),
    if_neg (by rintro ⟨-, h⟩; exact hn0 h), if_neg hg2]

theorem toNat_cast_rat {z : ℤ} (h : 0 ≤ z) : ((z.toNat : ℕ) : ℚ) = (z : ℚ) := by
  exact_mod_cast Int.toNat_of_nonneg h

/-- On validated inputs `calculate_sip` returns the rounded annuity value;
stated with the two rate branches visible. -/
theorem sip_ok (m r y : ℚ) (hm : 0 ≤ m) (hr : 0 ≤ r) (hy : 0 < y) :
    calculate_sip (.num m) (.num r) (.num y) =
      if r / 100 / 12 = 0 then
        .ok (round2 (m * (((pyRound (y * 12)).toNat : ℕ) : ℚ)))
      else
        .ok (round2 (m * (((1 + r / 100 / 12) ^ (pyRound (y * 12)).toNat - 1) / (r / 100 / 12))
          * (1 + r / 100 / 12))) := by
  unfold calculate_sip
  simp only [toFloat]
  rw [if_neg (not_lt.mpr hm), if_neg (not_le.mpr hy), if_neg (not_lt.mpr hr)]

/-- On validated inputs `calculate_rd` returns the rounded annuity value. -/
theorem rd_ok (p r y : ℚ) (hp : 0 ≤ p) (hr : 0 ≤ r) (hy : 0 < y) :
    calculate_rd (.num p) (.num r) (.num y) =
      if r / 100 / 12 = 0 then
        .ok (round2 (p * (((pyRound (y * 12)).toNat : ℕ) : ℚ)))
      else
        .ok (round2 (p * (((1 + r / 100 / 12) ^ (pyRound (y * 12)).toNat - 1) / (r / 100 / 12))
          * (1 + r / 100 / 12))) := by
  unfold calculate_rd
  simp only [toFloat]
  rw [if_neg (not_lt.mpr hp), if_neg (not_le.mpr hy), if_neg (not_lt.mpr hr)]

/-- On validated inputs with a zero rate, `estimate_retirement_corpus`
returns the rounded linear value `savings + addition * months`. -/
theorem retirement_zero_rate (S addn y : ℚ) (hS : 0 ≤ S) (ha : 0 ≤ addn) (hy : 0 < y) :
    estimate_retirement_corpus (.num S) (.num addn) (.num 0) (.num y) =
      .ok (round2 (S + addn * ((pyRound (y * 12) : ℤ) : ℚ))) := by
  have h0 : (0:ℤ) ≤ pyRound (y * 12) := pyRound_nonneg_of_pos (by positivity)
  unfold estimate_retirement_corpus
  simp only [toFloat]
  rw [if_neg (not_or.mpr ⟨not_lt.mpr hS, not_lt.mpr ha⟩), if_neg (not_le.mpr hy),
    if_neg (not_lt.mpr (le_refl 0)), if_pos (by norm_num : (0:ℚ)/100/12 = 0)]
  rw [toNat_cast_rat h0]
  norm_num

theorem ccbStep_nonneg (r p b : ℚ) : 0 ≤ ccbStep r p b := le_max_left 0 _

theorem ccbStep_le_self {r p b : ℚ} (hb : 0 ≤ b) (hc : (1 + r) * (1 - p / 100) ≤ 1) :
    ccbStep r p b ≤ b := by
  show max 0 (b * (1 + r) - b * (1 + r) * (p / 100)) ≤ b
  apply max_le hb
  have he : b * (1 + r) - b * (1 + r) * (p / 100) = b * ((1 + r) * (1 - p / 100)) := by ring
  rw [he]
  calc b * ((1 + r) * (1 - p / 100)) ≤ b * 1 := mul_le_mul_of_nonneg_left hc hb
    _ = b := mul_one b

theorem ccLoop_succ (r p : ℚ) (k : ℕ) (b : ℚ) :
    ccLoop r p (k + 1) b = ccbStep r p (ccLoop r p k b) := by
  induction k generalizing b with
  | zero => rfl
  | succ k ih =>
    calc ccLoop r p (k + 2) b = ccLoop r p (k + 1) (ccbStep r p b) := rfl
      _ = ccbStep r p (ccLoop r p k (ccbStep r p b)) := ih (ccbStep r p b)
      _ = ccbStep r p (ccLoop r p (k + 1) b) := rfl

theorem ccLoop_nonneg (r p : ℚ) (k : ℕ) {b : ℚ} (hb : 0 ≤ b) : 0 ≤ ccLoop r p k b := by
  induction k generalizing b with
  | zero => exact hb
  | succ k ih => exact ih (ccbStep_nonneg r p b)

/-- On validated inputs whose truncated month count is at least 1,
`calculate_credit_card_balance` runs the loop for that many months. -/
theorem ccb_ok (b mi mp q : ℚ) (hb : 0 ≤ b) (hmi : 0 ≤ mi) (hmp : 0 ≤ mp)
    (hq : 1 ≤ pyTrunc q) :
    calculate_credit_card_balance (.num b) (.num mi) (.num mp) (.num q) =
      .ok (round2 (ccLoop (mi / 100) mp (pyTrunc q).toNat b)) := by
  unfold calculate_credit_card_balance
  simp only [toFloat]
  rw [if_neg (not_lt.mpr hb), if_neg (not_or.mpr ⟨not_lt.mpr hmi, not_lt.mpr hmp⟩),
    if_neg (not_lt.mpr hq)]

/-- On validated inputs whose truncated month count is below 1, the month
check rejects with the source's message. -/
theorem ccb_reject (b mi mp q : ℚ) (hb : 0 ≤ b) (hmi : 0 ≤ mi) (hmp : 0 ≤ mp)
    (hq : pyTrunc q < 1) :
    calculate_credit_card_balance (.num b) (.num mi) (.num mp) (.num q) =
      .error (.valueError "months must be >= 1") := by
  unfold calculate_credit_card_balance
  simp only [toFloat]
  rw [if_neg (not_lt.mpr hb), if_neg (not_or.mpr ⟨not_lt.mpr hmi, not_lt.mpr hmp⟩),
    if_pos hq]

theorem sumValidated_num_append (tag negMsg : String) (qs : List ℚ)
    (rest : List PyVal) (i : ℕ) (acc : ℚ) (h : ∀ q ∈ qs, 0 ≤ q) :
    sumValidated tag negMsg (qs.map PyVal.num ++ rest) i acc =
      sumValidated tag negMsg rest (i + qs.length) (acc + qs.sum) := by
  induction qs generalizing i acc with
  | nil => simp [sumValidated]
  | cons q qs ih =>
    have hq : 0 ≤ q := h q (by simp)
    have hqs : ∀ x ∈ qs, 0 ≤ x := fun x hx => h x (by simp [hx])
    simp only [List.map_cons, List.cons_append, sumValidated, toFloat, List.append_eq]
    rw [if_neg (not_lt.mpr hq), ih (i + 1) (acc + q) hqs]
    rw [show i + 1 + qs.length = i + (qs.length + 1) from by omega]
    rw [List.sum_cons, show acc + q + qs.sum = acc + (q + qs.sum) from by ring]
    rfl

/-- A wholly valid mapped-number list sums cleanly. -/
theorem sumValidated_all_num (tag negMsg : String) (qs : List ℚ) (i : ℕ) (acc : ℚ)
    (h : ∀ q ∈ qs, 0 ≤ q) :
    sumValidated tag negMsg (qs.map PyVal.num) i acc = .ok (acc + qs.sum) := by
  have hx := sumValidated_num_append tag negMsg qs [] i acc h
  rw [List.append_nil] at hx
  rw [hx]
  rfl

/-- The first non-numeric element aborts with a `TypeError` whose message
names the element's index. -/
theorem sumValidated_badStr (tag negMsg : String) (qs : List ℚ) (rest : List PyVal)
    (i : ℕ) (acc : ℚ) (h : ∀ q ∈ qs, 0 ≤ q) :
    sumValidated tag negMsg (qs.map PyVal.num ++ .badStr :: rest) i acc =
      .error (.typeError (tag ++ "_" ++ toString (i + qs.length) ++ " must be a number")) := by
  rw [sumValidated_num_append tag negMsg qs (.badStr :: rest) i acc h]
  rfl

/-- The first negative element aborts with the loop's fixed `ValueError`
message, which does not depend on the index. -/
theorem sumValidated_neg (tag negMsg : String) (qs : List ℚ) (b : ℚ) (rest : List PyVal)
    (i : ℕ) (acc : ℚ) (h : ∀ q ∈ qs, 0 ≤ q) (hb : b < 0) :
    sumValidated tag negMsg (qs.map PyVal.num ++ .num b :: rest) i acc =
      .error (.valueError negMsg) := by
  rw [sumValidated_num_append tag negMsg qs (.num b :: rest) i acc h]
  show (if b < 0 then _ else _) = _
  rw [if_pos hb]

/-- On validated inputs `plan_budget` returns the record built from the
spec's policy table. -/
theorem plan_budget_ok (mi mex : ℚ) (hmi : 0 ≤ mi) (hme : 0 ≤ mex) :
    plan_budget (.num mi) (.num mex) =
      .ok { savings_target := round2 (mi * (specBudgetPercent mi mex / 100)),
            recommended_savings_percent := specBudgetPercent mi mex,
            surplus_or_deficit := round2 (mi - mex) } := by
  have hpct : (if mi = 0 then (0:ℚ)
      else if mex / mi ≤ 7/10 then 20
      else if mex / mi ≤ 9/10 then 10
      else 0) = specBudgetPercent mi mex := by
    unfold specBudgetPercent
    by_cases h0 : mi = 0
    · rw [if_pos h0, if_pos h0]
    · rw [if_neg h0, if_neg h0]
      by_cases h7 : mex / mi ≤ 7/10
      · rw [if_pos h7, if_pos h7]
      · rw [if_neg h7, if_neg h7]
        by_cases h9 : mex / mi ≤ 9/10
        · rw [if_pos h9, if_pos ⟨lt_of_not_le h7, h9⟩]
        · rw [if_neg h9, if_neg (by rintro ⟨-, h⟩; exact h9 h)]
  unfold plan_budget
  simp only [toFloat]
  rw [if_neg (not_or.mpr ⟨not_lt.mpr hmi, not_lt.mpr hme⟩)]
  rw [hpct]

/-- On wholly valid numeric lists, `calculate_net_worth` is the rounded
difference of the two sums. -/
theorem net_worth_ok (aq lq : List ℚ) (ha : ∀ q ∈ aq, 0 ≤ q) (hl : ∀ q ∈ lq, 0 ≤ q) :
    calculate_net_worth (aq.map PyVal.num) (lq.map PyVal.num) =
      .ok (round2 (aq.sum - lq.sum)) := by
  unfold calculate_net_worth
  rw [sumValidated_all_num _ _ aq 0 0 ha, sumValidated_all_num _ _ lq 0 0 hl]
  norm_num

theorem pyRound_ratCast (q : ℚ) : pyRound ((q : ℝ)) = pyRound q := by
  unfold pyRound
  rw [Rat.floor_cast]
  have e1 : (q : ℝ) - ((⌊q⌋ : ℤ) : ℝ) = (((q - ⌊q⌋ : ℚ)) : ℝ) := by push_cast; ring
  rw [e1, show ((1:ℝ)/2) = (((1/2 : ℚ)) : ℝ) by norm_num]
  simp only [Rat.cast_lt]

theorem round2_ratCast (q : ℚ) : round2 ((q : ℝ)) = ((round2 q : ℚ) : ℝ) := by
  unfold round2
  rw [show (q : ℝ) * 100 = ((q * 100 : ℚ) : ℝ) by push_cast; ring, pyRound_ratCast]
  push_cast
  ring

/-- On validated inputs with an integer-valued compounding frequency,
`calculate_fd` returns the rounded compound-interest amount. -/
theorem fd_ok (P r t : ℚ) (f : ℤ) (hP : 0 < P) (hr : 0 ≤ r) (ht : 0 < t) (hf : 1 ≤ f) :
    calculate_fd (.num P) (.num r) (.num t) (.num (f : ℚ)) =
      .ok (round2 ((P : ℝ) * ((1 : ℝ) + (r : ℝ) / 100 / (f : ℝ)) ^ ((f : ℝ) * (t : ℝ)))) := by
  unfold calculate_fd
  simp only [toFloat, pyIntCoerce, pyTrunc_intCast]
  rw [if_neg (not_le.mpr hP), if_neg (not_le.mpr ht), if_neg (not_lt.mpr hr),
    if_neg (not_le.mpr (by omega : (0:ℤ) < f))]

/-- The unrounded fixed-deposit amount strictly exceeds the principal for a
positive rate, positive tenure and positive compounding frequency. -/
theorem fd_growth (P r t : ℚ) (f : ℤ) (hP : 0 < P) (hr : 0 < r) (ht : 0 < t) (hf : 1 ≤ f) :
    (P : ℝ) < (P : ℝ) * ((1 : ℝ) + (r : ℝ) / 100 / (f : ℝ)) ^ ((f : ℝ) * (t : ℝ)) := by
  have hfR : (0:ℝ) < (f : ℝ) := by exact_mod_cast (by omega : (0:ℤ) < f)
  have hrR : (0:ℝ) < (r : ℝ) := by exact_mod_cast hr
  have htR : (0:ℝ) < (t : ℝ) := by exact_mod_cast ht
  have hbase : (1:ℝ) < 1 + (r : ℝ) / 100 / (f : ℝ) := by
    have hq : (0:ℝ) < (r : ℝ) / 100 / (f : ℝ) := by positivity
    linarith
  have hexp : (0:ℝ) < (f : ℝ) * (t : ℝ) := by positivity
  have hpow : (1:ℝ) < (1 + (r : ℝ) / 100 / (f : ℝ)) ^ ((f : ℝ) * (t : ℝ)) :=
    (Real.one_lt_rpow_iff_of_pos (by linarith)).mpr (Or.inl ⟨hbase, hexp⟩)
  calc (P : ℝ) = (P : ℝ) * 1 := by ring
    _ < (P : ℝ) * ((1 + (r : ℝ) / 100 / (f : ℝ)) ^ ((f : ℝ) * (t : ℝ))) :=
        mul_lt_mul_of_pos_left hpow (by exact_mod_cast hP)

theorem round2_eq_of_bounds (x : ℚ) (z : ℤ) (c : ℚ) (h1 : (z : ℚ) ≤ x * 100)
    (h2 : x * 100 < (z : ℚ) + 1/2) (h3 : (z : ℚ) / 100 = c) : round2 x = c := by
  rw [round2_eq_low x z h1 h2, h3]

/-- C1 (amended): the simulated balance is monotonically non-increasing across
iterations provided the combined step factor does not exceed one, i.e.
(1 + monthly_interest_percent/100) * (1 - minimum_payment_percent/100) <= 1;
the claim's own condition minimum_payment_percent > 0 is not sufficient. -/
theorem claim_C1_theorem (mi mp b : ℚ) (hb : 0 ≤ b) (hmi : 0 ≤ mi) (hmp : 0 ≤ mp)
    (hc : (1 + mi / 100) * (1 - mp / 100) ≤ 1) (k : ℕ) :
    ccLoop (mi / 100) mp (k + 1) b ≤ ccLoop (mi / 100) mp k b := by
  rw [ccLoop_succ]
  exact ccbStep_le_self (ccLoop_nonneg _ _ _ hb) hc

/-- C1 witness: 2% monthly interest with a 5% minimum payment satisfies the
step-factor condition, so month 4 of a 1000 balance is at most month 3. -/
theorem claim_C1_witness :
    ccLoop ((2:ℚ) / 100) 5 (3 + 1) 1000 ≤ ccLoop ((2:ℚ) / 100) 5 3 1000 :=
  claim_C1_theorem 2 5 1000 (by norm_num) (by norm_num) (by norm_num) (by norm_num) 3

/-- C1 counterexample: with a 10% monthly interest rate and a positive (1%)
minimum payment, one simulated month raises the balance from 100 to 108.90,
so the balance is not non-increasing merely because the payment percent is
positive. -/
theorem claim_C1_counterexample :
    calculate_credit_card_balance (.num 100) (.num 10) (.num 1) (.num 1) =
      .ok (1089/10) ∧ (100:ℚ) < 1089/10 := by
  constructor
  · have htr : pyTrunc (1:ℚ) = 1 := by
      rw [show (1:ℚ) = ((1:ℤ):ℚ) by norm_num, pyTrunc_intCast]
    rw [ccb_ok 100 10 1 1 (by norm_num) (by norm_num) (by norm_num) (by simp [htr])]
    rw [htr]
    norm_num [ccLoop, ccbStep]
    exact round2_eq_of_bounds _ 10890 _ (by norm_num) (by norm_num) (by norm_num)
  · norm_num

/-- C2: the claim says the month count in calculate_emi is guarded so that
n <= 0 never causes a division by zero; in the source there is no such guard
and tenure_years = 0.01 makes n = round(0.12) = 0, so the r = 0 branch
evaluates P / 0 and raises ZeroDivisionError. This theorem evaluates the
embedded code at that failing input. -/
theorem claim_C2_theorem :
    calculate_emi (.num 1000) (.num 0) (.num (1/100)) = .error .zeroDivisionError := by
  have hn : pyRound ((1:ℚ)/100 * 12) = 0 := pyRound_eq_low _ 0 (by norm_num) (by norm_num)
  simp only [calculate_emi, toFloat]
  rw [hn]
  norm_num

/-- C3: on every valid input (monthly amount >= 0, annual rate >= 0,
years > 0), calculate_rd returns exactly the same value as calculate_sip:
both compute the identical annuity formula with the same month count and the
same extra (1+r) factor, and the same simple product when the rate is 0. -/
theorem claim_C3_theorem (m r y : ℚ) (hm : 0 ≤ m) (hr : 0 ≤ r) (hy : 0 < y) :
    calculate_rd (.num m) (.num r) (.num y) = calculate_sip (.num m) (.num r) (.num y) := by
  rw [rd_ok m r y hm hr hy, sip_ok m r y hm hr hy]

/-- C3 witness: the equality at the concrete input (1000, 12, 1). -/
theorem claim_C3_witness :
    calculate_rd (.num 1000) (.num 12) (.num 1) = calculate_sip (.num 1000) (.num 12) (.num 1) :=
  claim_C3_theorem 1000 12 1 (by norm_num) (by norm_num) (by norm_num)

/-- C4 counterexample: the returned value is the 2-decimal rounding of the
linear value, not the exact linear value itself: calculate_emi(100, 0, 1)
returns 8.33, which differs from 100/12. -/
theorem claim_C4_counterexample :
    calculate_emi (.num 100) (.num 0) (.num 1) ≠ .ok ((100:ℚ)/12) := by
  have hn : pyRound ((1:ℚ) * 12) = 12 := pyRound_eq_low _ 12 (by norm_num) (by norm_num)
  have h1 : calculate_emi (.num 100) (.num 0) (.num 1) = .ok ((833:ℚ)/100) := by
    rw [emi_ok 100 0 1 (by norm_num) (by norm_num) (by norm_num) (by rw [hn]; norm_num)]
    rw [hn]
    have hcore : emiCore 100 ((0:ℚ)/100/12) ((12:ℤ).toNat) = 100/12 := by
      rw [show (12:ℤ).toNat = 12 from rfl]
      norm_num [emiCore]
    rw [hcore]
    exact congrArg Except.ok
      (round2_eq_of_bounds _ 833 _ (by norm_num) (by norm_num) (by norm_num))
  rw [h1]
  intro h
  rw [Except.ok.injEq] at h
  norm_num at h

/-- C4 (amended): with a zero rate each formula computes the linear value and
returns it rounded to 2 decimals; for calculate_emi the month count must in
addition round to at least 1 (otherwise the unguarded division raises). -/
theorem claim_C4_theorem :
    (∀ P t : ℚ, 0 < P → 0 < t → 1 ≤ pyRound (t * 12) →
      calculate_emi (.num P) (.num 0) (.num t) =
        .ok (round2 (P / ((pyRound (t * 12) : ℤ) : ℚ)))) ∧
    (∀ m y : ℚ, 0 ≤ m → 0 < y →
      calculate_sip (.num m) (.num 0) (.num y) =
        .ok (round2 (m * ((pyRound (y * 12) : ℤ) : ℚ)))) ∧
    (∀ p y : ℚ, 0 ≤ p → 0 < y →
      calculate_rd (.num p) (.num 0) (.num y) =
        .ok (round2 (p * ((pyRound (y * 12) : ℤ) : ℚ)))) ∧
    (∀ S a y : ℚ, 0 ≤ S → 0 ≤ a → 0 < y →
      estimate_retirement_corpus (.num S) (.num a) (.num 0) (.num y) =
        .ok (round2 (S + a * ((pyRound (y * 12) : ℤ) : ℚ)))) := by
  refine ⟨?_, ?_, ?_, fun S a y hS ha hy => retirement_zero_rate S a y hS ha hy⟩
  · intro P t hP ht hn
    rw [emi_ok P 0 t hP ht (le_refl 0) hn]
    rw [show (0:ℚ)/100/12 = 0 by norm_num]
    simp only [emiCore, eq_self_iff_true, if_true]
    rw [toNat_cast_rat (by omega : (0:ℤ) ≤ pyRound (t * 12))]
  · intro m y hm hy
    rw [sip_ok m 0 y hm (le_refl 0) hy, if_pos (by norm_num : (0:ℚ)/100/12 = 0)]
    rw [toNat_cast_rat (pyRound_nonneg_of_pos (by positivity))]
  · intro p y hp hy
    rw [rd_ok p 0 y hp (le_refl 0) hy, if_pos (by norm_num : (0:ℚ)/100/12 = 0)]
    rw [toNat_cast_rat (pyRound_nonneg_of_pos (by positivity))]

/-- C4 witness: the claim's own examples, via the amended theorem. -/
theorem claim_C4_witness :
    calculate_emi (.num 120000) (.num 0) (.num 1) =
      .ok (round2 (120000 / ((pyRound ((1:ℚ) * 12) : ℤ) : ℚ))) ∧
    calculate_sip (.num 1000) (.num 0) (.num 2) =
      .ok (round2 (1000 * ((pyRound ((2:ℚ) * 12) : ℤ) : ℚ))) :=
  ⟨claim_C4_theorem.1 120000 1 (by norm_num) (by norm_num)
      (by rw [pyRound_eq_low ((1:ℚ) * 12) 12 (by norm_num) (by norm_num)]; norm_num),
   claim_C4_theorem.2.1 1000 2 (by norm_num) (by norm_num)⟩

/-- C9 counterexample: months = 2.9 is not a positive integer, yet the call
is accepted: int() truncates it to 2 and the simulation runs for 2 months. -/
theorem claim_C9_counterexample :
    calculate_credit_card_balance (.num 100) (.num 0) (.num 0) (.num (29/10)) = .ok 100 := by
  have htr : pyTrunc ((29:ℚ)/10) = 2 :=
    pyTrunc_eq_of_nonneg _ 2 (by norm_num) (by norm_num) (by norm_num)
  rw [ccb_ok 100 0 0 (29/10) (by norm_num) (by norm_num) (by norm_num) (by simp [htr])]
  rw [htr]
  norm_num [ccLoop, ccbStep]
  exact round2_eq_of_bounds _ 10000 _ (by norm_num) (by norm_num) (by norm_num)

/-- C9 (amended): months = 0 is rejected with the ValueError message
"months must be >= 1"; a numeric months value is truncated toward zero by
int() and the call is accepted exactly when the truncation is at least 1, so
non-integer values above 1 are accepted rather than rejected. -/
theorem claim_C9_theorem (b mi mp q : ℚ) (hb : 0 ≤ b) (hmi : 0 ≤ mi) (hmp : 0 ≤ mp) :
    (calculate_credit_card_balance (.num b) (.num mi) (.num mp) (.num 0) =
      .error (.valueError "months must be >= 1")) ∧
    (pyTrunc q < 1 → calculate_credit_card_balance (.num b) (.num mi) (.num mp) (.num q) =
      .error (.valueError "months must be >= 1")) ∧
    (1 ≤ pyTrunc q → calculate_credit_card_balance (.num b) (.num mi) (.num mp) (.num q) =
      .ok (round2 (ccLoop (mi / 100) mp (pyTrunc q).toNat b))) := by
  refine ⟨?_, fun h => ccb_reject b mi mp q hb hmi hmp h,
    fun h => ccb_ok b mi mp q hb hmi hmp h⟩
  apply ccb_reject b mi mp 0 hb hmi hmp
  rw [show (0:ℚ) = ((0:ℤ):ℚ) by norm_num, pyTrunc_intCast]
  norm_num

/-- C9 witness: months = 0 rejected at a concrete valid input. -/
theorem claim_C9_witness :
    calculate_credit_card_balance (.num 100) (.num 2) (.num 5) (.num 0) =
      .error (.valueError "months must be >= 1") :=
  (claim_C9_theorem 100 2 5 0 (by norm_num) (by norm_num) (by norm_num)).1

/-- C10: plan_budget implements the spec's tier table on expenses/income when
income > 0 and recommends 0 with no division when income = 0, returning the
record with the rounded savings target, the tier percent, and the rounded
surplus; in particular (50000, 30000) recommends 20% and (0, 0) yields 0. -/
theorem claim_C10_theorem :
    (∀ mi mex : ℚ, 0 ≤ mi → 0 ≤ mex →
      plan_budget (.num mi) (.num mex) =
        .ok { savings_target := round2 (mi * (specBudgetPercent mi mex / 100)),
              recommended_savings_percent := specBudgetPercent mi mex,
              surplus_or_deficit := round2 (mi - mex) }) ∧
    (∃ bp : BudgetPlan, plan_budget (.num 50000) (.num 30000) = .ok bp ∧
      bp.recommended_savings_percent = 20) ∧
    (∃ bp : BudgetPlan, plan_budget (.num 0) (.num 0) = .ok bp ∧
      bp.recommended_savings_percent = 0 ∧ bp.savings_target = 0) := by
  refine ⟨fun mi mex hmi hme => plan_budget_ok mi mex hmi hme, ?_, ?_⟩
  · refine ⟨_, plan_budget_ok 50000 30000 (by norm_num) (by norm_num), ?_⟩
    norm_num [specBudgetPercent]
  · refine ⟨_, plan_budget_ok 0 0 (by norm_num) (by norm_num), ?_, ?_⟩
    · norm_num [specBudgetPercent]
    · show round2 ((0:ℚ) * (specBudgetPercent 0 0 / 100)) = 0
      rw [show (0:ℚ) * (specBudgetPercent 0 0 / 100) = 0 by ring]
      exact round2_eq_of_bounds _ 0 _ (by norm_num) (by norm_num) (by norm_num)

/-- C10 witness: the tier-table record at the concrete input (50000, 30000). -/
theorem claim_C10_witness :
    plan_budget (.num 50000) (.num 30000) =
      .ok { savings_target := round2 (50000 * (specBudgetPercent 50000 30000 / 100)),
            recommended_savings_percent := specBudgetPercent 50000 30000,
            surplus_or_deficit := round2 (50000 - 30000) } :=
  claim_C10_theorem.1 50000 30000 (by norm_num) (by norm_num)

/-- C6 counterexample: the 2-decimal rounding destroys strict monotonicity:
rates 0 and 0.000001 percent both yield an EMI of exactly 10000.00 on a
120000 principal over 1 year, so the rounded EMI is not strictly increasing
in the rate. -/
theorem claim_C6_counterexample :
    calculate_emi (.num 120000) (.num 0) (.num 1) = .ok 10000 ∧
    calculate_emi (.num 120000) (.num (1/1000000)) (.num 1) = .ok 10000 := by
  have hn : pyRound ((1:ℚ) * 12) = 12 := pyRound_eq_low _ 12 (by norm_num) (by norm_num)
  constructor
  · rw [emi_ok 120000 0 1 (by norm_num) (by norm_num) (by norm_num) (by rw [hn]; norm_num)]
    rw [hn, show (12:ℤ).toNat = 12 from rfl]
    have hcore : emiCore 120000 ((0:ℚ)/100/12) 12 = 10000 := by
      norm_num [emiCore]
    rw [hcore]
    exact congrArg Except.ok
      (round2_eq_of_bounds _ 1000000 _ (by norm_num) (by norm_num) (by norm_num))
  · rw [emi_ok 120000 (1/1000000) 1 (by norm_num) (by norm_num) (by norm_num)
      (by rw [hn]; norm_num)]
    rw [hn, show (12:ℤ).toNat = 12 from rfl]
    exact congrArg Except.ok
      (round2_eq_of_bounds _ 1000000 _ (by norm_num [emiCore]) (by norm_num [emiCore])
        (by norm_num))

/-- C6 (amended): the pre-rounding EMI value is strictly increasing in the
annual rate for a fixed positive principal and at least one rounded month,
and the returned 2-decimal-rounded value is therefore weakly increasing (the
counterexample shows strictness can be lost to rounding). -/
theorem claim_C6_theorem (P t r1 r2 : ℚ) (hP : 0 < P) (ht : 0 < t)
    (h1 : 0 ≤ r1) (h12 : r1 < r2) (hn : 1 ≤ pyRound (t * 12)) :
    calculate_emi (.num P) (.num r1) (.num t) =
        .ok (round2 (emiCore P (r1 / 100 / 12) (pyRound (t * 12)).toNat)) ∧
    calculate_emi (.num P) (.num r2) (.num t) =
        .ok (round2 (emiCore P (r2 / 100 / 12) (pyRound (t * 12)).toNat)) ∧
    emiCore P (r1 / 100 / 12) (pyRound (t * 12)).toNat
        < emiCore P (r2 / 100 / 12) (pyRound (t * 12)).toNat ∧
    round2 (emiCore P (r1 / 100 / 12) (pyRound (t * 12)).toNat)
        ≤ round2 (emiCore P (r2 / 100 / 12) (pyRound (t * 12)).toNat) := by
  have hmono : emiCore P (r1 / 100 / 12) (pyRound (t * 12)).toNat
      < emiCore P (r2 / 100 / 12) (pyRound (t * 12)).toNat :=
    emiCore_strict_mono P hP (by linarith) (by linarith) (by omega)
  exact ⟨emi_ok P r1 t hP ht h1 hn, emi_ok P r2 t hP ht (by linarith) hn, hmono,
    round2_mono (le_of_lt hmono)⟩

/-- C6 witness: rates 8% versus 9% on a 100000 principal over 1 year. -/
theorem claim_C6_witness :
    calculate_emi (.num 100000) (.num 8) (.num 1) =
        .ok (round2 (emiCore 100000 (8 / 100 / 12) (pyRound ((1:ℚ) * 12)).toNat)) ∧
    calculate_emi (.num 100000) (.num 9) (.num 1) =
        .ok (round2 (emiCore 100000 (9 / 100 / 12) (pyRound ((1:ℚ) * 12)).toNat)) ∧
    emiCore 100000 (8 / 100 / 12) (pyRound ((1:ℚ) * 12)).toNat
        < emiCore 100000 (9 / 100 / 12) (pyRound ((1:ℚ) * 12)).toNat ∧
    round2 (emiCore 100000 (8 / 100 / 12) (pyRound ((1:ℚ) * 12)).toNat)
        ≤ round2 (emiCore 100000 (9 / 100 / 12) (pyRound ((1:ℚ) * 12)).toNat) :=
  claim_C6_theorem 100000 1 8 9 (by norm_num) (by norm_num) (by norm_num) (by norm_num)
    (by rw [pyRound_eq_low ((1:ℚ) * 12) 12 (by norm_num) (by norm_num)]; norm_num)

/-- C7 counterexample: a non-numeric string for compounding_frequency_per_year
makes calculate_fd fail with a ValueError (from the raw int() conversion),
not with the TypeError that the shared coercion produces, so the shared
coercion does not cover every parameter of calculate_fd. -/
theorem claim_C7_counterexample :
    calculate_fd (.num 1000) (.num 5) (.num 1) .badStr =
      .error (.valueError "invalid literal for int() with base 10") ∧
    (Except.error (.valueError "invalid literal for int() with base 10") : Except PyErr ℝ) ≠
      .error (.typeError "compounding_frequency_per_year must be a number") := by
  exact ⟨rfl, by simp⟩

/-- C7 (amended): the shared coercion is applied to principal,
annual_rate_percent and years before any domain validation, failing with
TypeError on non-numeric and null values regardless of the other arguments;
compounding_frequency_per_year bypasses the shared coercion, and a
non-numeric string there fails with ValueError instead. -/
theorem claim_C7_theorem :
    (∀ r t f : PyVal,
      calculate_fd .badStr r t f = .error (.typeError "principal must be a number") ∧
      calculate_fd .pyNone r t f = .error (.typeError "principal must be a number")) ∧
    (∀ (q : ℚ) (t f : PyVal),
      calculate_fd (.num q) .badStr t f =
        .error (.typeError "annual_rate_percent must be a number") ∧
      calculate_fd (.num q) .pyNone t f =
        .error (.typeError "annual_rate_percent must be a number")) ∧
    (∀ (q1 q2 : ℚ) (f : PyVal),
      calculate_fd (.num q1) (.num q2) .badStr f =
        .error (.typeError "years must be a number") ∧
      calculate_fd (.num q1) (.num q2) .pyNone f =
        .error (.typeError "years must be a number")) ∧
    (∀ q1 q2 q3 : ℚ,
      calculate_fd (.num q1) (.num q2) (.num q3) .badStr =
        .error (.valueError "invalid literal for int() with base 10")) :=
  ⟨fun _ _ _ => ⟨rfl, rfl⟩, fun _ _ _ => ⟨rfl, rfl⟩, fun _ _ _ => ⟨rfl, rfl⟩,
    fun _ _ _ => rfl⟩

theorem net_worth_assets_error (assets ls : List PyVal) (e : PyErr)
    (h : sumValidated "asset" "asset values cannot be negative" assets 0 0 = .error e) :
    calculate_net_worth assets ls = .error e := by
  unfold calculate_net_worth
  rw [h]

theorem net_worth_liab_error (aq : List ℚ) (ls : List PyVal) (e : PyErr)
    (ha : ∀ q ∈ aq, 0 ≤ q)
    (h : sumValidated "liability" "liability values cannot be negative" ls 0 0 = .error e) :
    calculate_net_worth (aq.map PyVal.num) ls = .error e := by
  unfold calculate_net_worth
  rw [sumValidated_all_num _ _ aq 0 0 ha, h]

/-- C8 counterexample: a negative element aborts with the fixed message
"asset values cannot be negative", which does not name the element's
positional index: the first invalid element being at index 1 (second call:
index 0) produces the identical error, so the error cannot identify the
index. -/
theorem claim_C8_counterexample :
    calculate_net_worth [.num 1, .num (-1)] [] =
        .error (.valueError "asset values cannot be negative") ∧
    calculate_net_worth [.num (-1), .num 1] [] =
        .error (.valueError "asset values cannot be negative") := by
  constructor
  · apply net_worth_assets_error
    simp only [sumValidated, toFloat]
    rw [if_neg (by norm_num : ¬ (1:ℚ) < 0), if_pos (by norm_num : (-1:ℚ) < 0)]
  · apply net_worth_assets_error
    simp only [sumValidated, toFloat]
    rw [if_pos (by norm_num : (-1:ℚ) < 0)]

/-- C8 (amended): elements are validated in order and the first invalid one
aborts before any partial sum is returned; a coercion failure names the
element's positional index in its message, while a negativity failure
carries the loop's fixed message without the index; on wholly valid input
the result is the rounded difference of the sums. -/
theorem claim_C8_theorem :
    (∀ aq lq : List ℚ, (∀ q ∈ aq, 0 ≤ q) → (∀ q ∈ lq, 0 ≤ q) →
      calculate_net_worth (aq.map PyVal.num) (lq.map PyVal.num) =
        .ok (round2 (aq.sum - lq.sum))) ∧
    (∀ (aq : List ℚ) (rest ls : List PyVal), (∀ q ∈ aq, 0 ≤ q) →
      calculate_net_worth (aq.map PyVal.num ++ .badStr :: rest) ls =
        .error (.typeError ("asset_" ++ toString aq.length ++ " must be a number"))) ∧
    (∀ (aq : List ℚ) (b : ℚ) (rest ls : List PyVal), (∀ q ∈ aq, 0 ≤ q) → b < 0 →
      calculate_net_worth (aq.map PyVal.num ++ .num b :: rest) ls =
        .error (.valueError "asset values cannot be negative")) ∧
    (∀ (aq lq : List ℚ) (rest : List PyVal), (∀ q ∈ aq, 0 ≤ q) → (∀ q ∈ lq, 0 ≤ q) →
      calculate_net_worth (aq.map PyVal.num) (lq.map PyVal.num ++ .badStr :: rest) =
        .error (.typeError ("liability_" ++ toString lq.length ++ " must be a number"))) ∧
    (∀ (aq lq : List ℚ) (b : ℚ) (rest : List PyVal),
      (∀ q ∈ aq, 0 ≤ q) → (∀ q ∈ lq, 0 ≤ q) → b < 0 →
      calculate_net_worth (aq.map PyVal.num) (lq.map PyVal.num ++ .num b :: rest) =
        .error (.valueError "liability values cannot be negative")) := by
  refine ⟨net_worth_ok, ?_, ?_, ?_, ?_⟩
  · intro aq rest ls ha
    apply net_worth_assets_error
    rw [sumValidated_badStr _ _ aq rest 0 0 ha, Nat.zero_add]
    rfl
  · intro aq b rest ls ha hb
    apply net_worth_assets_error
    exact sumValidated_neg _ _ aq b rest 0 0 ha hb
  · intro aq lq rest ha hl
    apply net_worth_liab_error _ _ _ ha
    rw [sumValidated_badStr _ _ lq rest 0 0 hl, Nat.zero_add]
    rfl
  · intro aq lq b rest ha hl hb
    apply net_worth_liab_error _ _ _ ha
    exact sumValidated_neg _ _ lq b rest 0 0 hl hb

/-- C8 witness: the spec's example, net worth 130000.00. -/
theorem claim_C8_witness :
    calculate_net_worth ([100000, 50000].map PyVal.num) ([20000].map PyVal.num) =
      .ok (round2 (([100000, 50000] : List ℚ).sum - ([20000] : List ℚ).sum)) :=
  claim_C8_theorem.1 [100000, 50000] [20000] (by norm_num) (by norm_num)

/-- C5 counterexample: with principal 100, rate 0.0001 percent and one year,
the unrounded amount 100.0001 rounds to exactly 100.00, so the returned
2-decimal value equals the principal instead of strictly exceeding it. -/
theorem claim_C5_counterexample :
    calculate_fd (.num 100) (.num (1/10000)) (.num 1) (.num ((1:ℤ) : ℚ)) = .ok ((100:ℝ)) := by
  rw [fd_ok 100 (1/10000) 1 1 (by norm_num) (by norm_num) (by norm_num) (by norm_num)]
  congr 1
  rw [show (((1:ℤ):ℝ) * ((1:ℚ):ℝ)) = (1:ℝ) by push_cast; norm_num]
  rw [Real.rpow_one]
  rw [show ((100:ℚ):ℝ) * ((1:ℝ) + ((1/10000:ℚ):ℝ) / 100 / ((1:ℤ):ℝ)) =
      (((1000001:ℚ)/10000 : ℚ) : ℝ) by push_cast; norm_num]
  rw [round2_ratCast]
  rw [show round2 ((1000001:ℚ)/10000) = 100 from
      round2_eq_of_bounds _ 10000 _ (by norm_num) (by norm_num) (by norm_num)]
  norm_num

/-- C5 (amended): on valid inputs the pre-rounding maturity amount
P * (1 + r/100/freq) ^ (freq * t) is strictly greater than P; after rounding
to 2 decimals the returned value can equal P (see the counterexample), so
the strict inequality holds for the unrounded amount that the function
rounds and returns. -/
theorem claim_C5_theorem (P r t : ℚ) (f : ℤ) (hP : 0 < P) (hr : 0 < r) (ht : 0 < t)
    (hf : 1 ≤ f) :
    calculate_fd (.num P) (.num r) (.num t) (.num (f : ℚ)) =
      .ok (round2 ((P : ℝ) * ((1 : ℝ) + (r : ℝ) / 100 / (f : ℝ)) ^ ((f : ℝ) * (t : ℝ)))) ∧
    (P : ℝ) < (P : ℝ) * ((1 : ℝ) + (r : ℝ) / 100 / (f : ℝ)) ^ ((f : ℝ) * (t : ℝ)) :=
  ⟨fd_ok P r t f hP (le_of_lt hr) ht hf, fd_growth P r t f hP hr ht hf⟩

/-- C5 witness: principal 100 at 5% for 1 year, annual compounding. -/
theorem claim_C5_witness :
    calculate_fd (.num 100) (.num 5) (.num 1) (.num ((1:ℤ) : ℚ)) =
      .ok (round2 (((100:ℚ) : ℝ) *
        ((1 : ℝ) + ((5:ℚ) : ℝ) / 100 / ((1:ℤ) : ℝ)) ^ (((1:ℤ) : ℝ) * ((1:ℚ) : ℝ)))) ∧
    ((100:ℚ) : ℝ) < ((100:ℚ) : ℝ) *
        ((1 : ℝ) + ((5:ℚ) : ℝ) / 100 / ((1:ℤ) : ℝ)) ^ (((1:ℤ) : ℝ) * ((1:ℚ) : ℝ)) :=
  claim_C5_theorem 100 5 1 1 (by norm_num) (by norm_num) (by norm_num) (by norm_num)
